import Mathlib

/-!
# Verification of the ACL (Astronomy Class Library) multi-block file model

Shallow embedding of the parts of the AstroMad/ACL repository that the
frozen claims concern:

* `CFITSKeywordUInt16` and its typed conversion operators
  (src/source/FITSKeywordUInt16.cpp) — machine integers are modelled as
  `Nat`/`Int`, a throwing conversion as `Except`.
* The `CAstroFile` aggregate (src/include/AstroFile.h), its dirty/has-data
  flags, its HDB block store, the geometric-transform facade, the
  astrometry/photometry observation lists and the HDB-type registry.
  Only the class declarations of the aggregate and of `CImageHDB`
  (src/Include/HDBImage.h) are in the repository slice; the member-function
  bodies live in source files outside it, so those operations are modelled
  from the specification (each such definition's doc comment starts with
  `Modelled from the spec:`).
-/

namespace ACL

/-! ## Error kinds (spec §7) -/

/-- The error vocabulary of the specification (§7): `NotFound`, `RangeError`,
`OutOfRange`, `InvalidArgument`, `InconsistentState`, `Unsupported`.
`rangeError` models the C++ `std::range_error` thrown by narrowing keyword
conversions. -/
inductive AclError where
  | notFound
  | rangeError
  | outOfRange
  | invalidArgument
  | inconsistentState
  | unsupported
  deriving DecidableEq, Repr

/-! ## CFITSKeywordUInt16 (src/source/FITSKeywordUInt16.cpp)

The C++ class stores `std::uint16_t value_` together with the keyword name
and comment.  The stored machine word is modelled as a `Nat`; the
unsigned-16-bit invariant is `value_ < 65536` and is irrelevant to the
conversion semantics below (every branch is value-preserving for any
non-negative store). -/

/-- The `CFITSKeywordUInt16` object: keyword name, stored `uint16_t` value
(as a `Nat`), comment. -/
structure CFITSKeywordUInt16 where
  keyword_ : String
  value_ : Nat
  comment_ : String
  deriving DecidableEq, Repr

/-- `std::numeric_limits<std::int16_t>::max()`. -/
def int16Max : Int := 32767

/-- `std::numeric_limits<std::int16_t>::min()`. -/
def int16Min : Int := -32768

/-- `CFITSKeywordUInt16::operator std::int16_t` (FITSKeywordUInt16.cpp:84-95):
returns `static_cast<std::int16_t>(value_)` when
`value_ <= int16 max && value_ >= int16 min`, otherwise throws
`std::range_error`.  In C++ the comparisons promote the `uint16_t` operand to
`int`, so they are the mathematical comparisons written here, and the
in-range `static_cast` is value-preserving. -/
def CFITSKeywordUInt16.toInt16 (k : CFITSKeywordUInt16) : Except AclError Int :=
  if (k.value_ : Int) ≤ int16Max ∧ int16Min ≤ (k.value_ : Int) then
    Except.ok (k.value_ : Int)
  else
    Except.error AclError.rangeError

/-- `CFITSKeywordUInt16::operator std::int32_t` (FITSKeywordUInt16.cpp:97-100):
`static_cast<std::int32_t>(value_)`, value-preserving since every `uint16_t`
fits in `int32_t`.  The operator has no failure path. -/
def CFITSKeywordUInt16.toInt32 (k : CFITSKeywordUInt16) : Int := (k.value_ : Int)

/-- `CFITSKeywordUInt16::operator std::int64_t` (FITSKeywordUInt16.cpp:102-105):
`static_cast<std::int64_t>(value_)`, value-preserving; no failure path. -/
def CFITSKeywordUInt16.toInt64 (k : CFITSKeywordUInt16) : Int := (k.value_ : Int)

/-- `CFITSKeywordUInt16::operator std::uint16_t` (FITSKeywordUInt16.cpp:107-110):
returns `value_` itself. -/
def CFITSKeywordUInt16.toUInt16 (k : CFITSKeywordUInt16) : Nat := k.value_

/-- `CFITSKeywordUInt16::operator std::uint32_t` (FITSKeywordUInt16.cpp:113-116):
`static_cast<std::uint32_t>(value_)`, value-preserving; no failure path. -/
def CFITSKeywordUInt16.toUInt32 (k : CFITSKeywordUInt16) : Nat := k.value_

/-- `CFITSKeywordUInt16::operator float` (FITSKeywordUInt16.cpp:118-121):
`static_cast<float>(value_)`.  Every `uint16_t` value is below `2^24` and is
therefore represented exactly in IEEE-754 binary32, so the conversion is the
mathematical identity on the stored value; no failure path. -/
def CFITSKeywordUInt16.toFloat32 (k : CFITSKeywordUInt16) : Int := (k.value_ : Int)

/-- `CFITSKeywordUInt16::operator double` (FITSKeywordUInt16.cpp:123-126):
`static_cast<double>(value_)`, exact for every `uint16_t` (below `2^53`);
no failure path. -/
def CFITSKeywordUInt16.toFloat64 (k : CFITSKeywordUInt16) : Int := (k.value_ : Int)

/-- `CFITSKeywordUInt16::operator std::string` (FITSKeywordUInt16.cpp:128-131):
`std::to_string(value_)`, the decimal rendering of the stored value. -/
def CFITSKeywordUInt16.toStringView (k : CFITSKeywordUInt16) : String :=
  toString k.value_

end ACL

namespace ACL

/-! ## Sanity examples for the keyword conversions -/

example : (CFITSKeywordUInt16.mk "SIMPLE" 40000 "").toInt16 =
    Except.error AclError.rangeError := rfl

example : (CFITSKeywordUInt16.mk "SIMPLE" 32767 "").toInt16 =
    Except.ok 32767 := rfl

example : (CFITSKeywordUInt16.mk "SIMPLE" 40000 "").toInt64 = 40000 := rfl

example : (CFITSKeywordUInt16.mk "SIMPLE" 40000 "").toStringView = "40000" := rfl

/-! ## The Image payload (`CAstroImage` behind `CImageHDB`, src/Include/HDBImage.h)

The repository slice holds only the class declaration of `CImageHDB`
(HDBImage.h:79-195); the bodies of `imageFlip`, `imageFlop`, `imageCrop`,
`imageRotate` live outside the slice.  The pixel buffer and the geometric
operations are therefore modelled from the specification. -/

/-- The 2-D pixel buffer of an Image payload: declared width and height plus
the rows of pixel samples.  A sample is modelled as an `Int` (the pixel depth
descriptor is irrelevant to the geometric claims). -/
structure PixelBuffer where
  width : Nat
  height : Nat
  rows : List (List Int)
  deriving DecidableEq, Repr

/-- A pixel buffer is well formed when its row list has exactly `height`
entries, each of length `width`. -/
def PixelBuffer.wellFormed (b : PixelBuffer) : Prop :=
  b.rows.length = b.height ∧ ∀ r ∈ b.rows, r.length = b.width

instance (b : PixelBuffer) : Decidable b.wellFormed := by
  unfold PixelBuffer.wellFormed; infer_instance

/-- Modelled from the spec: `CImageHDB::imageFlip` (HDBImage.h:165; body not
in the slice) — "mirror about horizontal axis" (§4.2), i.e. the order of the
pixel rows is reversed while each row's content and the extents are kept. -/
def PixelBuffer.imageFlip (b : PixelBuffer) : PixelBuffer :=
  { b with rows := b.rows.reverse }

/-- Modelled from the spec: `CImageHDB::imageFlop` (HDBImage.h:166; body not
in the slice) — "mirror about vertical axis" (§4.2), i.e. each pixel row is
reversed while the row order and the extents are kept. -/
def PixelBuffer.imageFlop (b : PixelBuffer) : PixelBuffer :=
  { b with rows := b.rows.map List.reverse }

/-- Modelled from the spec: `CImageHDB::imageCrop(origen, dims)`
(HDBImage.h:164; body not in the slice) — §4.2 edge-case policy: "`crop` ...
with a requested region ... outside the current extents fails with
`OutOfRange`"; otherwise the buffer is cut down to the requested rectangle
(fail fast, validate before touch, §7). -/
def PixelBuffer.imageCrop (b : PixelBuffer) (ox oy dx dy : Nat) :
    Except AclError PixelBuffer :=
  if ox + dx ≤ b.width ∧ oy + dy ≤ b.height then
    Except.ok
      { width := dx, height := dy,
        rows := ((b.rows.drop oy).take dy).map fun r => (r.drop ox).take dx }
  else
    Except.error AclError.outOfRange

/-! ## Observation records (Astrometry / Photometry payloads)

`CAstroFile` tracks `astrometryHDB_` / `photometryHDB_` (AstroFile.h:172-173)
whose observation-list operations (`astrometryObjectAdd`,
`photometryObjectAdd`, ... AstroFile.h:362-381) have no bodies in the slice;
the observation list is modelled from the specification (§3, §4.2). -/

/-- An observation record: an identity plus a pixel-position measurement
(coordinates as rationals; flux measurements are not needed by the claims). -/
structure Observation where
  id : String
  x : ℚ
  y : ℚ
  deriving DecidableEq, Repr

/-- Modelled from the spec: `addObservation(record) -> bool` (§4.2) — "false
if an observation with the same identity already exists"; a fresh record is
appended to the ordered list.  Returns the flag together with the updated
list. -/
def addObservation (obs : List Observation) (r : Observation) :
    Bool × List Observation :=
  if obs.any fun o => o.id = r.id then
    (false, obs)
  else
    (true, obs ++ [r])

/-! ## Coordinate Solution (spec §4.4) -/

/-- Modelled from the spec: the Coordinate Solution attached to an Image
block — linear reference terms plus the staleness flag that geometric
transforms must raise (§4.4: "A solution is marked stale (not automatically
discarded) after any geometric transform that changes orientation or
scale"). -/
structure CoordinateSolution where
  refPixelX : ℚ
  refPixelY : ℚ
  refSkyX : ℚ
  refSkyY : ℚ
  stale : Bool
  deriving DecidableEq, Repr

/-- An Image block's payload: the pixel buffer plus the optional Coordinate
Solution (`CImageHDB` holds `CAstroImage *data` and `WorldCoor
*WCSInformation`, HDBImage.h:82-84). -/
structure ImageBlock where
  buffer : PixelBuffer
  wcs : Option CoordinateSolution
  deriving DecidableEq, Repr

/-! ## Keyword store entries (spec §3, §4.1)

The typed keyword classes share one value union at model level; only the
widths exercised by the claims are distinguished. -/

/-- The tagged value union of a Keyword Entry (§3). -/
inductive KeywordValue where
  | intVal (v : Int)
  | uint16Val (v : Nat)
  | floatVal (v : ℚ)
  | stringVal (s : String)
  | boolVal (b : Bool)
  deriving DecidableEq, Repr

/-- One Keyword Entry: `(name, value, comment)` (§3). -/
structure KeywordEntry where
  name : String
  value : KeywordValue
  comment : String
  deriving DecidableEq, Repr

/-- Modelled from the spec: `write(name, value, comment)` of the Keyword
Store (§4.1) — "inserts or overwrites a typed entry, preserving insertion
order for first-time names". -/
def keywordStoreWrite (ks : List KeywordEntry) (e : KeywordEntry) :
    List KeywordEntry :=
  if ks.any fun k => k.name = e.name then
    ks.map fun k => if k.name = e.name then e else k
  else
    ks ++ [e]

/-! ## The HDB block store (`DHDBStore`, AstroFile.h:102,183) -/

/-- The payload of one HDB, one constructor per block kind (§3: `kind:
enum{Image, AsciiTable, BinTable, Astrometry, Photometry}`; class hierarchy
in HDBImage.h:48-53). -/
inductive HDBPayload where
  | image (img : ImageBlock)
  | asciiTable
  | binTable
  | astrometry (obs : List Observation)
  | photometry (obs : List Observation)
  deriving DecidableEq, Repr

/-- One HDB (data block): its name, its Keyword Store and its kind-specific
payload (§3 Block). -/
structure HDBState where
  name : String
  keywords : List KeywordEntry
  payload : HDBPayload
  deriving DecidableEq, Repr

/-! ## The File Aggregate (`CAstroFile`, AstroFile.h:169-395)

The fields mirror the data members of the class declaration
(AstroFile.h:172-185): the astrometry/photometry back-references, the image
name, the five observation-context records, the HDB store, and the two
mutable flags.  The context records are opaque at model level. -/

/-- One opaque observation-context record (`CObservatory`, `CWeather`,
`CAstroTime`, `CTargetAstronomy`, `CTelescope` are out of scope, spec §1). -/
structure ContextRecord where
  payload : String
  deriving DecidableEq, Repr

/-- The `CAstroFile` aggregate state (AstroFile.h:169-185). -/
structure CAstroFile where
  astrometryHDB_ : Option Nat
  photometryHDB_ : Option Nat
  imageName_ : String
  observationLocation : Option ContextRecord
  observationWeather : Option ContextRecord
  observationTime : Option ContextRecord
  observationTarget : Option ContextRecord
  observationTelescope : Option ContextRecord
  HDB : List HDBState
  bDirty : Bool
  bHasData : Bool
  deriving DecidableEq, Repr

/-- `CAstroFile::isDirty() const` (AstroFile.h:237): `return bDirty;`. -/
def CAstroFile.isDirty (f : CAstroFile) : Bool := f.bDirty

/-- `CAstroFile::hasData() const` (AstroFile.h:238): `return bHasData;`. -/
def CAstroFile.hasData (f : CAstroFile) : Bool := f.bHasData

/-- `CAstroFile::isDirty(bool b) const` (AstroFile.h:239): `bDirty = b;` —
the flag is `mutable` (AstroFile.h:184), so the const member assigns it and
touches nothing else. -/
def CAstroFile.isDirtySet (f : CAstroFile) (b : Bool) : CAstroFile :=
  { f with bDirty := b }

/-- `CAstroFile::hasData(bool b) const` (AstroFile.h:240): `bHasData = b;` —
the flag is `mutable` (AstroFile.h:185). -/
def CAstroFile.hasDataSet (f : CAstroFile) (b : Bool) : CAstroFile :=
  { f with bHasData := b }

/-- Modelled from the spec: the freshly constructed aggregate
(`CAstroFile()` has no body in the slice) — "a File Aggregate is created
empty" (§3 Lifecycle); `has_data` is false until a primary block is created
or loaded, and nothing is dirty yet. -/
def CAstroFile.new (name : String) : CAstroFile :=
  { astrometryHDB_ := none, photometryHDB_ := none, imageName_ := name,
    observationLocation := none, observationWeather := none,
    observationTime := none, observationTarget := none,
    observationTelescope := none, HDB := [], bDirty := false,
    bHasData := false }

/-- The primary image payload: the paradigm of AstroFile.h (doc block at
lines 155-167) is "The primary HDU contains the primary image", and §3 fixes
"the primary image is always block index 0 once created". -/
def CAstroFile.primaryImage (f : CAstroFile) : Option ImageBlock :=
  match f.HDB with
  | [] => none
  | b :: _ =>
    match b.payload with
    | HDBPayload.image img => some img
    | _ => none

/-- The stored observations of a block sequence, in block order:
astrometric and photometric records alike ("every stored
astrometric/photometric pixel-position observation", §4.3). -/
def observationsOf : List HDBState → List Observation
  | [] => []
  | b :: rest =>
    match b.payload with
    | HDBPayload.astrometry obs => obs ++ observationsOf rest
    | HDBPayload.photometry obs => obs ++ observationsOf rest
    | _ => observationsOf rest

/-- Every stored observation of the aggregate. -/
def CAstroFile.allObservations (f : CAstroFile) : List Observation :=
  observationsOf f.HDB

/-! ## Geometric transforms with cross-block propagation (spec §4.3)

`CAstroFile::flipImage/flopImage/rotateImage/imageCrop`
(AstroFile.h:319-327) have no bodies in the slice; the propagation pipeline
is modelled from the specification: "apply transform T to image; if present,
apply T to Coordinate Solution; for each attached observation list, apply T
to every stored position" (§9), with the Coordinate Solution marked stale,
not recomputed (§4.4, §9 open question). -/

/-- The rotation of a single point about a centre.  The angle is carried by
its cosine/sine pair so that the model stays within exact rational
arithmetic; a 90-degree rotation is `(cosA, sinA) = (0, 1)`. -/
def rotatePoint (cx cy cosA sinA x y : ℚ) : ℚ × ℚ :=
  (cx + cosA * (x - cx) - sinA * (y - cy),
   cy + sinA * (x - cx) + cosA * (y - cy))

/-- Modelled from the spec: the centre of an image, the point a facade
`rotate` turns about ("rotate of the primary image by angle θ about its
center", §4.3). -/
def imageCenter (b : PixelBuffer) : ℚ × ℚ := ((b.width : ℚ) / 2, (b.height : ℚ) / 2)

/-- An observation with its pixel position rotated. -/
def Observation.rotate (cx cy cosA sinA : ℚ) (o : Observation) : Observation :=
  { o with
    x := (rotatePoint cx cy cosA sinA o.x o.y).1,
    y := (rotatePoint cx cy cosA sinA o.x o.y).2 }

/-- Modelled from the spec: the effect of a facade rotate on one HDB.  An
Image block keeps its buffer extents (the spec does not define the raster
resampling, only the propagation; §1 excludes the numeric pipelines) and its
Coordinate Solution is marked stale (§4.4); every observation of an
Astrometry/Photometry block is rotated by the same angle about the same
centre (§4.3); plain tables are untouched. -/
def HDBState.rotate (cx cy cosA sinA : ℚ) (b : HDBState) : HDBState :=
  match b.payload with
  | HDBPayload.image img =>
    { b with payload :=
        HDBPayload.image { img with wcs := img.wcs.map fun s => { s with stale := true } } }
  | HDBPayload.astrometry obs =>
    { b with payload :=
        HDBPayload.astrometry (obs.map (Observation.rotate cx cy cosA sinA)) }
  | HDBPayload.photometry obs =>
    { b with payload :=
        HDBPayload.photometry (obs.map (Observation.rotate cx cy cosA sinA)) }
  | _ => b

/-- Modelled from the spec: `CAstroFile::rotateImage` (AstroFile.h:321; body
not in the slice) — rotates the primary image by the angle given through its
cosine/sine about the image centre and propagates the same rotation to every
coordinate-bearing block as one atomic unit (§4.3, §9); the mutating call
raises the dirty flag (§3).  Without a primary image block the call fails
with `NotFound` and the aggregate is untouched (§7: validate before
mutate). -/
def CAstroFile.rotateImage (f : CAstroFile) (cosA sinA : ℚ) :
    CAstroFile × Option AclError :=
  match f.primaryImage with
  | none => (f, some AclError.notFound)
  | some img =>
    let c := imageCenter img.buffer
    ({ f with HDB := f.HDB.map (HDBState.rotate c.1 c.2 cosA sinA),
              bDirty := true }, none)

/-- Modelled from the spec: the effect of a facade flip (mirror about the
horizontal axis, §4.2) on one HDB: the image buffer's rows are reversed, the
Coordinate Solution is marked stale (§4.4: any transform changing
orientation), and every stored observation's row coordinate `y` is mirrored
to `height - 1 - y` on the pixel grid `0 .. height-1`. -/
def HDBState.flip (h : ℚ) (b : HDBState) : HDBState :=
  match b.payload with
  | HDBPayload.image img =>
    { b with payload :=
        HDBPayload.image { buffer := img.buffer.imageFlip,
                           wcs := img.wcs.map fun s => { s with stale := true } } }
  | HDBPayload.astrometry obs =>
    { b with payload :=
        HDBPayload.astrometry (obs.map fun o => { o with y := h - 1 - o.y }) }
  | HDBPayload.photometry obs =>
    { b with payload :=
        HDBPayload.photometry (obs.map fun o => { o with y := h - 1 - o.y }) }
  | _ => b

/-- Modelled from the spec: the effect of a facade flop (mirror about the
vertical axis, §4.2) on one HDB, the column-wise mirror of
`HDBState.flip`. -/
def HDBState.flop (w : ℚ) (b : HDBState) : HDBState :=
  match b.payload with
  | HDBPayload.image img =>
    { b with payload :=
        HDBPayload.image { buffer := img.buffer.imageFlop,
                           wcs := img.wcs.map fun s => { s with stale := true } } }
  | HDBPayload.astrometry obs =>
    { b with payload :=
        HDBPayload.astrometry (obs.map fun o => { o with x := w - 1 - o.x }) }
  | HDBPayload.photometry obs =>
    { b with payload :=
        HDBPayload.photometry (obs.map fun o => { o with x := w - 1 - o.x }) }
  | _ => b

/-- Modelled from the spec: `CAstroFile::flipImage` (AstroFile.h:319; body
not in the slice) — flips the primary image and propagates to all
coordinate-bearing blocks (§4.3); raises the dirty flag (§3). -/
def CAstroFile.flipImage (f : CAstroFile) : CAstroFile × Option AclError :=
  match f.primaryImage with
  | none => (f, some AclError.notFound)
  | some img =>
    ({ f with HDB := f.HDB.map (HDBState.flip (img.buffer.height : ℚ)),
              bDirty := true }, none)

/-- Modelled from the spec: `CAstroFile::flopImage` (AstroFile.h:320; body
not in the slice) — flops the primary image and propagates (§4.3); raises
the dirty flag (§3). -/
def CAstroFile.flopImage (f : CAstroFile) : CAstroFile × Option AclError :=
  match f.primaryImage with
  | none => (f, some AclError.notFound)
  | some img =>
    ({ f with HDB := f.HDB.map (HDBState.flop (img.buffer.width : ℚ)),
              bDirty := true }, none)

/-- Modelled from the spec: the effect of a facade crop at origin
`(ox, oy)` on one HDB, applied only after the bounds were validated against
the primary image: the image buffer is cut (the bound check was already
done, so an impossible `OutOfRange` falls back to the untouched block), the
Coordinate Solution is marked stale, and every observation position is
translated by `(-ox, -oy)`. -/
def HDBState.crop (ox oy dx dy : Nat) (b : HDBState) : HDBState :=
  match b.payload with
  | HDBPayload.image img =>
    match img.buffer.imageCrop ox oy dx dy with
    | Except.ok buf =>
      { b with payload :=
          HDBPayload.image { buffer := buf,
                             wcs := img.wcs.map fun s => { s with stale := true } } }
    | Except.error _ => b
  | HDBPayload.astrometry obs =>
    { b with payload :=
        HDBPayload.astrometry (obs.map fun o => { o with x := o.x - (ox : ℚ), y := o.y - (oy : ℚ) }) }
  | HDBPayload.photometry obs =>
    { b with payload :=
        HDBPayload.photometry (obs.map fun o => { o with x := o.x - (ox : ℚ), y := o.y - (oy : ℚ) }) }
  | _ => b

/-- Modelled from the spec: `CAstroFile::imageCrop` (AstroFile.h:326-327;
body not in the slice) — validates the requested region against the primary
image's extents first (§7: "local validation before mutation"); a region
outside the extents fails with `OutOfRange` and leaves the aggregate
untouched (§4.2); otherwise the crop is applied to the image and propagated
to every coordinate-bearing block (§4.3) and the dirty flag is raised. -/
def CAstroFile.imageCrop (f : CAstroFile) (ox oy dx dy : Nat) :
    CAstroFile × Option AclError :=
  match f.primaryImage with
  | none => (f, some AclError.notFound)
  | some img =>
    if ox + dx ≤ img.buffer.width ∧ oy + dy ≤ img.buffer.height then
      ({ f with HDB := f.HDB.map (HDBState.crop ox oy dx dy),
                bDirty := true }, none)
    else
      (f, some AclError.outOfRange)

/-! ## The HDB-type registry (AstroFile.h:104-115, 177, 253-255)

`SHDBRegister` bundles a class-name function, a signature-test function and
a construction function; `static DHDBRegister HDBRegister` is the
process-wide table (a `std::vector`).  The bodies of
`CAstroFile::HDBRegisterClass` / `HDBCreateClass` are not in the slice; the
registration and resolution are modelled from the specification (§4.3:
"registration is append-only and is not revoked at runtime"; resolution
"consulted whenever an external decoder needs to materialize the correct
Block variant for a loaded record"). -/

/-- One registry entry (`SHDBRegister`, AstroFile.h:108-113).  The
`testFunction` is modelled by the decoded block signature it accepts
(`signature`); the `createFunction` by an identifier of the construction
function. -/
structure SHDBRegister where
  HDBClassName : String
  signature : String
  createFunction : Nat
  deriving DecidableEq, Repr

/-- Modelled from the spec: `CAstroFile::HDBRegisterClass` (AstroFile.h:253;
body not in the slice) — appends the entry to the registry; append-only,
nothing is removed or replaced (§4.3). -/
def HDBRegisterClass (reg : List SHDBRegister) (r : SHDBRegister) :
    List SHDBRegister :=
  reg ++ [r]

/-- Modelled from the spec: `CAstroFile::HDBCreateClass` (AstroFile.h:255;
body not in the slice) — walks the registry in registration order and
returns the first entry whose test function accepts the decoded record's
signature. -/
def HDBCreateClass (reg : List SHDBRegister) (sig : String) :
    Option SHDBRegister :=
  reg.find? fun r => r.signature = sig

/-! ## The facade operation language

The mutating facade entry points of `CAstroFile` that the temporal and
error-handling claims quantify over, together with the flag setters and
`save`.  Their one-step semantics `applyOp` returns the successor aggregate
state paired with the error surfaced to the caller (`none` on success); on
an error the branch hands back the untouched input state, which is the
spec's fail-fast discipline (§7) made syntactic. -/

/-- A facade call on the aggregate. -/
inductive FacadeOp where
  | keywordWrite (ix : Nat) (name : String) (v : KeywordValue) (comment : String)
  | flipImage
  | flopImage
  | rotateImage (cosA sinA : ℚ)
  | imageCrop (ox oy dx dy : Nat)
  | astrometryObjectAdd (r : Observation)
  | createPrimaryImageHDB
  | isDirtySet (b : Bool)
  | hasDataSet (b : Bool)
  | save
  deriving DecidableEq

/-- Does one HDB hold an astrometry payload? -/
def HDBState.isAstrometry (b : HDBState) : Bool :=
  match b.payload with
  | HDBPayload.astrometry _ => true
  | _ => false

/-- Rewrites the observation list of the first astrometry block
(`astrometryHDB_` tracks at most one such block, spec §3). -/
def mapFirstAstrometry (g : List Observation → List Observation) :
    List HDBState → List HDBState
  | [] => []
  | b :: rest =>
    match b.payload with
    | HDBPayload.astrometry obs =>
      { b with payload := HDBPayload.astrometry (g obs) } :: rest
    | _ => b :: mapFirstAstrometry g rest

/-- Modelled from the spec: one facade call (§4.3), with §3's flag rule —
"`dirty` becomes true on any mutating facade call" — applied on every
successful mutating branch, §7's fail-fast rule on every failing branch, and
`isDirty(false)` as the caller's explicit save acknowledgement. -/
def applyOp (op : FacadeOp) (f : CAstroFile) : CAstroFile × Option AclError :=
  match op with
  | FacadeOp.keywordWrite ix name v comment =>
    match f.HDB[ix]? with
    | none => (f, some AclError.invalidArgument)
    | some b =>
      ({ f with
          HDB := f.HDB.set ix
            { b with keywords := keywordStoreWrite b.keywords ⟨name, v, comment⟩ },
          bDirty := true }, none)
  | FacadeOp.flipImage => f.flipImage
  | FacadeOp.flopImage => f.flopImage
  | FacadeOp.rotateImage cosA sinA => f.rotateImage cosA sinA
  | FacadeOp.imageCrop ox oy dx dy => f.imageCrop ox oy dx dy
  | FacadeOp.astrometryObjectAdd r =>
    if f.HDB.any HDBState.isAstrometry then
      ({ f with
          HDB := mapFirstAstrometry (fun obs => (addObservation obs r).2) f.HDB,
          bDirty := true }, none)
    else
      (f, some AclError.notFound)
  | FacadeOp.createPrimaryImageHDB =>
    match f.HDB with
    | [] =>
      ({ f with
          HDB := [⟨"PRIMARY", [], HDBPayload.image ⟨⟨0, 0, []⟩, none⟩⟩],
          bDirty := true, bHasData := true }, none)
    | _ :: _ => (f, some AclError.invalidArgument)
  | FacadeOp.isDirtySet b => (f.isDirtySet b, none)
  | FacadeOp.hasDataSet b => (f.hasDataSet b, none)
  | FacadeOp.save => (f, none)

/-- The facade calls that mutate the aggregate's data (§3: "any mutating
facade call"); the flag setters and `save` are not data mutations. -/
def FacadeOp.isMutating : FacadeOp → Bool
  | FacadeOp.keywordWrite _ _ _ _ => true
  | FacadeOp.flipImage => true
  | FacadeOp.flopImage => true
  | FacadeOp.rotateImage _ _ => true
  | FacadeOp.imageCrop _ _ _ _ => true
  | FacadeOp.astrometryObjectAdd _ => true
  | FacadeOp.createPrimaryImageHDB => true
  | FacadeOp.isDirtySet _ => false
  | FacadeOp.hasDataSet _ => false
  | FacadeOp.save => false

/-- The calls by which a primary block is "created or loaded" (§3):
explicit creation, or the load path's `hasData(true)` acknowledgement. -/
def FacadeOp.createsData : FacadeOp → Bool
  | FacadeOp.createPrimaryImageHDB => true
  | FacadeOp.hasDataSet b => b
  | _ => false

/-- Runs a sequence of facade calls, keeping the successor state of each
step (errors are surfaced to the caller and the run continues on the
untouched state, §7). -/
def runOps : List FacadeOp → CAstroFile → CAstroFile
  | [], f => f
  | op :: rest, f => runOps rest (applyOp op f).1

/-- The staleness of the primary image's Coordinate Solution, when both are
present (§4.4: "callers must be able to query staleness"). -/
def CAstroFile.primaryWCSStale (f : CAstroFile) : Option Bool :=
  (f.primaryImage.bind fun img => img.wcs).map CoordinateSolution.stale

/-! ## Concrete fixtures (the instances named by the testable properties,
spec §8) -/

/-- A well-formed 100x100 pixel buffer. -/
def testBuffer100 : PixelBuffer :=
  ⟨100, 100, List.replicate 100 (List.replicate 100 0)⟩

/-- The observation `star1` at pixel `(10, 10)` (§8 property 3). -/
def star1 : Observation := ⟨"star1", 10, 10⟩

/-- The primary image block of the fixture: the 100x100 buffer with a fresh
(non-stale) Coordinate Solution attached. -/
def testImageBlock : ImageBlock :=
  ⟨testBuffer100, some ⟨50, 50, 0, 0, false⟩⟩

/-- The fixture aggregate of §8 property 3: a 100x100 primary Image block
with an attached Astrometry block holding one observation at `(10, 10)`. -/
def testFile : CAstroFile :=
  { astrometryHDB_ := some 1, photometryHDB_ := none,
    imageName_ := "testfile",
    observationLocation := none, observationWeather := none,
    observationTime := none, observationTarget := none,
    observationTelescope := none,
    HDB := [⟨"PRIMARY", [], HDBPayload.image testImageBlock⟩,
            ⟨"ASTROMETRY", [], HDBPayload.astrometry [star1]⟩],
    bDirty := false, bHasData := true }

end ACL

namespace ACL

/-! ## Theorems for the claims -/

/-- C1.  For every keyword storing an unsigned 16-bit value, reading it as a
signed 16-bit view fails with `RangeError` exactly when the stored value
does not fit in `[-32768, 32767]`; in particular, a stored value of `40000`
read as a signed 16-bit view fails with `RangeError`
(`CFITSKeywordUInt16::operator std::int16_t`, FITSKeywordUInt16.cpp:84-95). -/
theorem uint16_int16_narrowing_range_error :
    (∀ k : CFITSKeywordUInt16,
        k.toInt16 = Except.error AclError.rangeError ↔
          ¬ (int16Min ≤ (k.value_ : Int) ∧ (k.value_ : Int) ≤ int16Max)) ∧
    (CFITSKeywordUInt16.mk "TESTKEY" 40000 "").toInt16 =
      Except.error AclError.rangeError := by
  constructor
  · intro k
    constructor
    · intro he hc
      have hok : k.toInt16 = Except.ok (k.value_ : Int) := by
        simp [CFITSKeywordUInt16.toInt16, hc.1, hc.2]
      rw [hok] at he
      exact Except.noConfusion he
    · intro hn
      have hc : ¬ ((k.value_ : Int) ≤ int16Max ∧ int16Min ≤ (k.value_ : Int)) :=
        fun hx => hn ⟨hx.2, hx.1⟩
      simp [CFITSKeywordUInt16.toInt16, hc]
  · rfl

/-- C2.  For every keyword storing an unsigned 16-bit value `v`, reading it
as a wider or more permissive view — signed 32-bit, signed 64-bit, unsigned
32-bit, float, double, or string — never fails (the operators are total,
FITSKeywordUInt16.cpp:97-131) and returns `v` unchanged, the decimal
rendering of `v` for the string view; in particular `40000` read as a signed
64-bit view equals `40000`. -/
theorem uint16_widening_views_preserve_value :
    (∀ k : CFITSKeywordUInt16,
        k.toInt32 = (k.value_ : Int) ∧
        k.toInt64 = (k.value_ : Int) ∧
        k.toUInt32 = k.value_ ∧
        k.toFloat32 = (k.value_ : Int) ∧
        k.toFloat64 = (k.value_ : Int) ∧
        k.toStringView = toString k.value_) ∧
    (CFITSKeywordUInt16.mk "TESTKEY" 40000 "").toInt64 = 40000 :=
  ⟨fun _ => ⟨rfl, rfl, rfl, rfl, rfl, rfl⟩, rfl⟩

/-- C4.  For every Image block, applying `flip()` twice returns the pixel
buffer to exactly its original content, and applying `flop()` twice likewise
(`CImageHDB::imageFlip`/`imageFlop`, HDBImage.h:165-166, modelled from §4.2
as the row-order and in-row mirrors). -/
theorem flip_flop_applied_twice_restore_buffer :
    ∀ b : PixelBuffer, b.imageFlip.imageFlip = b ∧ b.imageFlop.imageFlop = b := by
  intro b
  cases b with
  | mk w h rows =>
    refine ⟨?_, ?_⟩
    · simp [PixelBuffer.imageFlip]
    · simp [PixelBuffer.imageFlop, List.map_map, Function.comp_def]

/-- C10.  The const member functions `isDirty(bool)` and `hasData(bool)`
(AstroFile.h:239-240) assign exactly the requested value to the `mutable`
dirty (resp. has-data) flag and change no other field of the aggregate — so
any caller can clear the dirty flag through the public interface without any
save occurring. -/
theorem isDirty_hasData_setters_frame :
    ∀ (f : CAstroFile) (b : Bool),
      (f.isDirtySet b).bDirty = b ∧
      (f.isDirtySet b).isDirty = b ∧
      (f.isDirtySet b).astrometryHDB_ = f.astrometryHDB_ ∧
      (f.isDirtySet b).photometryHDB_ = f.photometryHDB_ ∧
      (f.isDirtySet b).imageName_ = f.imageName_ ∧
      (f.isDirtySet b).observationLocation = f.observationLocation ∧
      (f.isDirtySet b).observationWeather = f.observationWeather ∧
      (f.isDirtySet b).observationTime = f.observationTime ∧
      (f.isDirtySet b).observationTarget = f.observationTarget ∧
      (f.isDirtySet b).observationTelescope = f.observationTelescope ∧
      (f.isDirtySet b).HDB = f.HDB ∧
      (f.isDirtySet b).bHasData = f.bHasData ∧
      (f.hasDataSet b).bHasData = b ∧
      (f.hasDataSet b).hasData = b ∧
      (f.hasDataSet b).astrometryHDB_ = f.astrometryHDB_ ∧
      (f.hasDataSet b).photometryHDB_ = f.photometryHDB_ ∧
      (f.hasDataSet b).imageName_ = f.imageName_ ∧
      (f.hasDataSet b).observationLocation = f.observationLocation ∧
      (f.hasDataSet b).observationWeather = f.observationWeather ∧
      (f.hasDataSet b).observationTime = f.observationTime ∧
      (f.hasDataSet b).observationTarget = f.observationTarget ∧
      (f.hasDataSet b).observationTelescope = f.observationTelescope ∧
      (f.hasDataSet b).HDB = f.HDB ∧
      (f.hasDataSet b).bDirty = f.bDirty :=
  fun _ _ =>
    ⟨rfl, rfl, rfl, rfl, rfl, rfl, rfl, rfl, rfl, rfl, rfl, rfl,
     rfl, rfl, rfl, rfl, rfl, rfl, rfl, rfl, rfl, rfl, rfl, rfl⟩

/-- C5.  For every Astrometry or Photometry observation list,
`addObservation` returns `false` whenever an observation with the same
identity already exists and leaves the list untouched; in particular,
calling it twice with the same identity returns `false` on the second call
and leaves the observation count unchanged at 1 (spec §4.2;
`CAstroFile::astrometryObjectAdd`/`photometryObjectAdd`,
AstroFile.h:362/377, bodies not in the slice). -/
theorem addObservation_duplicate_identity_rejected :
    (∀ (s : List Observation) (r : Observation),
        (∃ o ∈ s, o.id = r.id) →
        (addObservation s r).1 = false ∧ (addObservation s r).2 = s) ∧
    (∀ r r' : Observation, r'.id = r.id →
        (addObservation (addObservation [] r).2 r').1 = false ∧
        (addObservation (addObservation [] r).2 r').2.length = 1) := by
  constructor
  · rintro s r ⟨o, ho, hid⟩
    have hany : (s.any fun o => o.id = r.id) = true :=
      List.any_eq_true.mpr ⟨o, ho, by simp [hid]⟩
    exact ⟨by simp [addObservation, hany], by simp [addObservation, hany]⟩
  · intro r r' h
    simp [addObservation, h]

/-- Witness for C5: the double add of `star1` to the empty list. -/
theorem addObservation_duplicate_identity_rejected_witness :
    (addObservation (addObservation [] star1).2 star1).1 = false ∧
    (addObservation (addObservation [] star1).2 star1).2.length = 1 :=
  addObservation_duplicate_identity_rejected.2 star1 star1 rfl

/-- C8.  The process-wide HDB-type registry is append-only
(`CAstroFile::HDBRegisterClass`/`HDBCreateClass`, AstroFile.h:253-255,
modelled from §4.3): after registering constructors for two different
signatures, resolving by each signature returns that signature's
constructor, and no registration removes or shadows an entry some signature
already resolved to. -/
theorem registry_append_only_resolution
    (reg : List SHDBRegister) (r1 r2 : SHDBRegister)
    (hne : r1.signature ≠ r2.signature)
    (h1 : HDBCreateClass reg r1.signature = none)
    (h2 : HDBCreateClass reg r2.signature = none) :
    HDBCreateClass (HDBRegisterClass (HDBRegisterClass reg r1) r2)
        r1.signature = some r1 ∧
    HDBCreateClass (HDBRegisterClass (HDBRegisterClass reg r1) r2)
        r2.signature = some r2 ∧
    ∀ (reg' : List SHDBRegister) (r e : SHDBRegister) (s : String),
      HDBCreateClass reg' s = some e →
      HDBCreateClass (HDBRegisterClass reg' r) s = some e := by
  refine ⟨?_, ?_, ?_⟩
  · unfold HDBCreateClass HDBRegisterClass at *
    rw [List.append_assoc, List.find?_append, h1]
    simp [hne]
  · unfold HDBCreateClass HDBRegisterClass at *
    rw [List.append_assoc, List.find?_append, h2]
    simp only [Option.none_or, List.find?_append]
    simp [hne]
  · intro reg' r e s he
    unfold HDBCreateClass HDBRegisterClass at *
    rw [List.find?_append, he]
    rfl

/-- Witness for C8: an image and a table constructor registered into the
empty registry. -/
theorem registry_append_only_resolution_witness :
    HDBCreateClass
        (HDBRegisterClass (HDBRegisterClass [] ⟨"CImageHDB", "IMAGE", 0⟩)
          ⟨"CHDBAsciiTable", "TABLE", 1⟩) "IMAGE" =
      some ⟨"CImageHDB", "IMAGE", 0⟩ ∧
    HDBCreateClass
        (HDBRegisterClass (HDBRegisterClass [] ⟨"CImageHDB", "IMAGE", 0⟩)
          ⟨"CHDBAsciiTable", "TABLE", 1⟩) "TABLE" =
      some ⟨"CHDBAsciiTable", "TABLE", 1⟩ :=
  ⟨(registry_append_only_resolution [] ⟨"CImageHDB", "IMAGE", 0⟩
      ⟨"CHDBAsciiTable", "TABLE", 1⟩ (by decide) rfl rfl).1,
   (registry_append_only_resolution [] ⟨"CImageHDB", "IMAGE", 0⟩
      ⟨"CHDBAsciiTable", "TABLE", 1⟩ (by decide) rfl rfl).2.1⟩

/-- C6.  `crop` with a requested region outside the current extents fails
with `OutOfRange`, and the full-frame crop succeeds and is a no-op on pixel
content (`CImageHDB::imageCrop`, HDBImage.h:164, modelled from §4.2/§8
property 4). -/
theorem imageCrop_bounds (b : PixelBuffer) (hw : b.wellFormed)
    (ox oy dx dy : Nat) :
    (¬ (ox + dx ≤ b.width ∧ oy + dy ≤ b.height) →
        b.imageCrop ox oy dx dy = Except.error AclError.outOfRange) ∧
    b.imageCrop 0 0 b.width b.height = Except.ok b := by
  constructor
  · intro hout
    simp [PixelBuffer.imageCrop, hout]
  · obtain ⟨hlen, hrow⟩ := hw
    cases b with
    | mk w h rows =>
      simp only at hlen hrow
      simp only [PixelBuffer.imageCrop, Nat.zero_add, le_refl, and_self,
        if_true, List.drop_zero]
      have htake : rows.take h = rows := List.take_of_length_le (le_of_eq hlen)
      rw [htake]
      have hmap : rows.map (fun r => r.take w) = rows.map id := by
        refine List.map_congr_left ?_
        intro r hr
        simp [List.take_of_length_le (le_of_eq (hrow r hr))]
      rw [hmap, List.map_id]

/-- Rotating a block sequence rotates exactly its stored observations. -/
theorem observationsOf_map_rotate (cx cy cosA sinA : ℚ) (l : List HDBState) :
    observationsOf (l.map (HDBState.rotate cx cy cosA sinA)) =
      (observationsOf l).map (Observation.rotate cx cy cosA sinA) := by
  induction l with
  | nil => rfl
  | cons b rest ih =>
    cases hb : b.payload <;>
      simp [observationsOf, HDBState.rotate, hb, ih]

/-- A rotated block's Coordinate Solution, when present, is stale. -/
theorem rotate_marks_wcs_stale (cx cy cosA sinA : ℚ) (b : HDBState)
    (img' : ImageBlock) (s : CoordinateSolution)
    (hp : (HDBState.rotate cx cy cosA sinA b).payload = HDBPayload.image img')
    (hw : img'.wcs = some s) : s.stale = true := by
  cases hb : b.payload with
  | image img =>
    simp only [HDBState.rotate, hb, HDBPayload.image.injEq] at hp
    rw [← hp] at hw
    simp only [Option.map_eq_some'] at hw
    obtain ⟨a, _, ha⟩ := hw
    rw [← ha]
  | asciiTable => simp [HDBState.rotate, hb] at hp
  | binTable => simp [HDBState.rotate, hb] at hp
  | astrometry obs => simp [HDBState.rotate, hb] at hp
  | photometry obs => simp [HDBState.rotate, hb] at hp

/-- C3.  For every File Aggregate holding an Image block (the primary block)
with attached observation-bearing blocks, rotating the image by an angle —
carried as its cosine/sine pair — about the image centre succeeds, rotates
every stored observation pixel position by the same angle about the same
centre, and marks every attached Coordinate Solution stale
(`CAstroFile::rotateImage`, AstroFile.h:321 / `CImageHDB::imageRotate`,
HDBImage.h:167, modelled from §4.3/§4.4; the witness instantiates §8
property 3: the 100x100 fixture's observation at (10,10) relocates to
(90,10), exactly, under the 90-degree rotation `(cosA, sinA) = (0, 1)`). -/
theorem rotateImage_propagates_and_marks_stale
    (f : CAstroFile) (img : ImageBlock) (cosA sinA : ℚ)
    (h : f.primaryImage = some img) :
    (f.rotateImage cosA sinA).2 = none ∧
    (f.rotateImage cosA sinA).1.allObservations =
      f.allObservations.map
        (Observation.rotate (imageCenter img.buffer).1
          (imageCenter img.buffer).2 cosA sinA) ∧
    (∀ b ∈ (f.rotateImage cosA sinA).1.HDB,
        ∀ (img' : ImageBlock) (s : CoordinateSolution),
          b.payload = HDBPayload.image img' → img'.wcs = some s →
            s.stale = true) := by
  refine ⟨?_, ?_, ?_⟩
  · simp [CAstroFile.rotateImage, h]
  · simp [CAstroFile.rotateImage, h, CAstroFile.allObservations,
      observationsOf_map_rotate]
  · intro b hb img' s hp hw
    simp only [CAstroFile.rotateImage, h] at hb
    rw [List.mem_map] at hb
    obtain ⟨b0, _, hb0⟩ := hb
    exact rotate_marks_wcs_stale _ _ cosA sinA b0 img' s (hb0 ▸ hp) hw

/-- Witness for C3 at the §8 fixture: the 100x100 image with one
observation at (10,10); the 90-degree rotation relocates it to (90,10) and
the Coordinate Solution is stale. -/
theorem rotateImage_propagates_and_marks_stale_witness :
    testFile.primaryImage = some testImageBlock ∧
    (testFile.rotateImage 0 1).2 = none ∧
    (testFile.rotateImage 0 1).1.allObservations = [⟨"star1", 90, 10⟩] ∧
    (testFile.rotateImage 0 1).1.primaryWCSStale = some true := by
  refine ⟨rfl,
    (rotateImage_propagates_and_marks_stale testFile testImageBlock 0 1 rfl).1,
    ?_, ?_⟩
  · rw [(rotateImage_propagates_and_marks_stale testFile testImageBlock
        0 1 rfl).2.1]
    norm_num [testFile, CAstroFile.allObservations, observationsOf,
      testImageBlock, testBuffer100, imageCenter, Observation.rotate,
      rotatePoint, star1]
  · rfl

/-- C9.  Every facade operation that fails with one of the recoverable
error kinds (`NotFound`, `RangeError`, `OutOfRange`, `InvalidArgument`)
surfaces the error directly to the caller and leaves the entire aggregate
state unchanged — no partial mutation of any block, keyword store or
observation list (spec §7 propagation policy; the facade entry points at
AstroFile.h:264-282 and 319-327, modelled from the spec). -/
theorem local_failure_leaves_aggregate_unchanged
    (op : FacadeOp) (f : CAstroFile) (e : AclError)
    (h : (applyOp op f).2 = some e) : (applyOp op f).1 = f := by
  cases op with
  | keywordWrite ix name v c =>
    simp only [applyOp] at h ⊢
    cases hg : f.HDB[ix]? with
    | none => simp [hg]
    | some b => simp [hg] at h
  | flipImage =>
    simp only [applyOp, CAstroFile.flipImage] at h ⊢
    cases hp : f.primaryImage with
    | none => simp [hp]
    | some img => simp [hp] at h
  | flopImage =>
    simp only [applyOp, CAstroFile.flopImage] at h ⊢
    cases hp : f.primaryImage with
    | none => simp [hp]
    | some img => simp [hp] at h
  | rotateImage cosA sinA =>
    simp only [applyOp, CAstroFile.rotateImage] at h ⊢
    cases hp : f.primaryImage with
    | none => simp [hp]
    | some img => simp [hp] at h
  | imageCrop ox oy dx dy =>
    simp only [applyOp, CAstroFile.imageCrop] at h ⊢
    cases hp : f.primaryImage with
    | none => simp [hp]
    | some img =>
      by_cases hc : ox + dx ≤ img.buffer.width ∧ oy + dy ≤ img.buffer.height
      · simp [hp, hc] at h
      · simp [hp, hc]
  | astrometryObjectAdd r =>
    simp only [applyOp] at h ⊢
    by_cases ha : f.HDB.any HDBState.isAstrometry
    · simp [ha] at h
    · simp [ha]
  | createPrimaryImageHDB =>
    simp only [applyOp] at h ⊢
    cases hH : f.HDB with
    | nil => simp [hH] at h
    | cons a rest => simp [hH]
  | isDirtySet b => simp [applyOp] at h
  | hasDataSet b => simp [applyOp] at h
  | save => simp [applyOp] at h

/-- Witness for C9: the out-of-range crop on the fixture fails with
`OutOfRange` and leaves the aggregate exactly as it was. -/
theorem local_failure_leaves_aggregate_unchanged_witness :
    (applyOp (FacadeOp.imageCrop 90 90 20 20) testFile).2 =
      some AclError.outOfRange ∧
    (applyOp (FacadeOp.imageCrop 90 90 20 20) testFile).1 = testFile :=
  ⟨rfl,
   local_failure_leaves_aggregate_unchanged
     (FacadeOp.imageCrop 90 90 20 20) testFile AclError.outOfRange rfl⟩

/-- A facade call that is not a creation or load acknowledgement leaves a
data-less aggregate data-less. -/
theorem applyOp_hasData_false (op : FacadeOp) (f : CAstroFile)
    (hop : op.createsData = false) (hf : f.bHasData = false) :
    (applyOp op f).1.bHasData = false := by
  cases op with
  | keywordWrite ix name v c =>
    simp only [applyOp]
    cases hg : f.HDB[ix]? with
    | none => simpa using hf
    | some b => simpa using hf
  | flipImage =>
    simp only [applyOp, CAstroFile.flipImage]
    cases hp : f.primaryImage <;> simpa using hf
  | flopImage =>
    simp only [applyOp, CAstroFile.flopImage]
    cases hp : f.primaryImage <;> simpa using hf
  | rotateImage cosA sinA =>
    simp only [applyOp, CAstroFile.rotateImage]
    cases hp : f.primaryImage <;> simpa using hf
  | imageCrop ox oy dx dy =>
    simp only [applyOp, CAstroFile.imageCrop]
    cases hp : f.primaryImage with
    | none => simpa using hf
    | some img =>
      by_cases hc : ox + dx ≤ img.buffer.width ∧ oy + dy ≤ img.buffer.height
      · simpa [hc] using hf
      · simpa [hc] using hf
  | astrometryObjectAdd r =>
    simp only [applyOp]
    by_cases ha : f.HDB.any HDBState.isAstrometry
    · simpa [ha] using hf
    · simpa [ha] using hf
  | createPrimaryImageHDB => simp [FacadeOp.createsData] at hop
  | isDirtySet b => simpa [applyOp, CAstroFile.isDirtySet] using hf
  | hasDataSet b =>
    have hb : b = false := by simpa [FacadeOp.createsData] using hop
    simp [applyOp, CAstroFile.hasDataSet, hb]
  | save => simpa [applyOp] using hf

/-- Running creation-free facade calls never raises the has-data flag. -/
theorem runOps_hasData_false (ops : List FacadeOp) :
    ∀ f : CAstroFile, (∀ op ∈ ops, op.createsData = false) →
      f.bHasData = false → (runOps ops f).bHasData = false := by
  induction ops with
  | nil => intro f _ hf; exact hf
  | cons op rest ih =>
    intro f hall hf
    exact ih _ (fun o ho => hall o (List.mem_cons_of_mem _ ho))
      (applyOp_hasData_false op f (hall op (List.mem_cons_self _ _)) hf)

/-- C7.  The dirty flag becomes true on every (successful) mutating facade
call; no facade call other than the caller's explicit save acknowledgement
`isDirty(false)` ever clears it; and the has-data flag stays false on a
fresh aggregate until a primary block is created or a load acknowledges
data (spec §3; flags at AstroFile.h:184-185, facade modelled from the
spec). -/
theorem dirty_hasData_flag_discipline :
    (∀ (op : FacadeOp) (f : CAstroFile), op.isMutating = true →
        (applyOp op f).2 = none → (applyOp op f).1.bDirty = true) ∧
    (∀ (op : FacadeOp) (f : CAstroFile), f.bDirty = true →
        (applyOp op f).1.bDirty = false → op = FacadeOp.isDirtySet false) ∧
    (∀ ops : List FacadeOp, (∀ op ∈ ops, op.createsData = false) →
        (runOps ops (CAstroFile.new "newfile")).bHasData = false) := by
  refine ⟨?_, ?_, ?_⟩
  · intro op f hmut hok
    cases op with
    | keywordWrite ix name v c =>
      simp only [applyOp] at hok ⊢
      cases hg : f.HDB[ix]? with
      | none => simp [hg] at hok
      | some b => simp [hg]
    | flipImage =>
      simp only [applyOp, CAstroFile.flipImage] at hok ⊢
      cases hp : f.primaryImage with
      | none => simp [hp] at hok
      | some img => simp [hp]
    | flopImage =>
      simp only [applyOp, CAstroFile.flopImage] at hok ⊢
      cases hp : f.primaryImage with
      | none => simp [hp] at hok
      | some img => simp [hp]
    | rotateImage cosA sinA =>
      simp only [applyOp, CAstroFile.rotateImage] at hok ⊢
      cases hp : f.primaryImage with
      | none => simp [hp] at hok
      | some img => simp [hp]
    | imageCrop ox oy dx dy =>
      simp only [applyOp, CAstroFile.imageCrop] at hok ⊢
      cases hp : f.primaryImage with
      | none => simp [hp] at hok
      | some img =>
        by_cases hc : ox + dx ≤ img.buffer.width ∧ oy + dy ≤ img.buffer.height
        · simp [hp, hc]
        · simp [hp, hc] at hok
    | astrometryObjectAdd r =>
      simp only [applyOp] at hok ⊢
      by_cases ha : f.HDB.any HDBState.isAstrometry
      · simp [ha]
      · simp [ha] at hok
    | createPrimaryImageHDB =>
      simp only [applyOp] at hok ⊢
      cases hH : f.HDB with
      | nil => simp [hH]
      | cons a rest => simp [hH] at hok
    | isDirtySet b => simp [FacadeOp.isMutating] at hmut
    | hasDataSet b => simp [FacadeOp.isMutating] at hmut
    | save => simp [FacadeOp.isMutating] at hmut
  · intro op f hd hcleared
    cases op with
    | keywordWrite ix name v c =>
      simp only [applyOp] at hcleared
      cases hg : f.HDB[ix]? with
      | none => rw [hg] at hcleared; simp [hd] at hcleared
      | some b => rw [hg] at hcleared; simp at hcleared
    | flipImage =>
      simp only [applyOp, CAstroFile.flipImage] at hcleared
      cases hp : f.primaryImage with
      | none => rw [hp] at hcleared; simp [hd] at hcleared
      | some img => rw [hp] at hcleared; simp at hcleared
    | flopImage =>
      simp only [applyOp, CAstroFile.flopImage] at hcleared
      cases hp : f.primaryImage with
      | none => rw [hp] at hcleared; simp [hd] at hcleared
      | some img => rw [hp] at hcleared; simp at hcleared
    | rotateImage cosA sinA =>
      simp only [applyOp, CAstroFile.rotateImage] at hcleared
      cases hp : f.primaryImage with
      | none => rw [hp] at hcleared; simp [hd] at hcleared
      | some img => rw [hp] at hcleared; simp at hcleared
    | imageCrop ox oy dx dy =>
      simp only [applyOp, CAstroFile.imageCrop] at hcleared
      cases hp : f.primaryImage with
      | none => rw [hp] at hcleared; simp [hd] at hcleared
      | some img =>
        rw [hp] at hcleared
        by_cases hc : ox + dx ≤ img.buffer.width ∧ oy + dy ≤ img.buffer.height
        · simp [hc] at hcleared
        · simp [hc, hd] at hcleared
    | astrometryObjectAdd r =>
      simp only [applyOp] at hcleared
      by_cases ha : f.HDB.any HDBState.isAstrometry
      · simp [ha] at hcleared
      · simp [ha, hd] at hcleared
    | createPrimaryImageHDB =>
      simp only [applyOp] at hcleared
      cases hH : f.HDB with
      | nil => rw [hH] at hcleared; simp at hcleared
      | cons a rest => rw [hH] at hcleared; simp [hd] at hcleared
    | isDirtySet b =>
      simp only [applyOp, CAstroFile.isDirtySet] at hcleared
      simp [hcleared]
    | hasDataSet b =>
      simp only [applyOp, CAstroFile.hasDataSet] at hcleared
      simp [hd] at hcleared
    | save => simp [applyOp, hd] at hcleared
  · intro ops hall
    exact runOps_hasData_false ops (CAstroFile.new "newfile") hall rfl

/-- Witness for C7: a successful flip raises the dirty flag; the
acknowledgement is the only clearing call; a creation-free run keeps a
fresh aggregate data-less. -/
theorem dirty_hasData_flag_discipline_witness :
    (applyOp FacadeOp.flipImage testFile).1.bDirty = true ∧
    FacadeOp.isDirtySet false = FacadeOp.isDirtySet false ∧
    (runOps [FacadeOp.save, FacadeOp.isDirtySet false]
        (CAstroFile.new "newfile")).bHasData = false :=
  ⟨dirty_hasData_flag_discipline.1 FacadeOp.flipImage testFile rfl rfl,
   dirty_hasData_flag_discipline.2.1 (FacadeOp.isDirtySet false)
     (testFile.isDirtySet true) rfl rfl,
   dirty_hasData_flag_discipline.2.2
     [FacadeOp.save, FacadeOp.isDirtySet false] (by decide)⟩

/-- Witness for C6 at the 100x100 fixture: the (90,90)+(20,20) crop fails
with `OutOfRange`, the (0,0)+(100,100) crop is the identity. -/
theorem imageCrop_bounds_witness :
    testBuffer100.wellFormed ∧
    testBuffer100.imageCrop 90 90 20 20 = Except.error AclError.outOfRange ∧
    testBuffer100.imageCrop 0 0 100 100 = Except.ok testBuffer100 :=
  ⟨by decide,
   (imageCrop_bounds testBuffer100 (by decide) 90 90 20 20).1 (by decide),
   (imageCrop_bounds testBuffer100 (by decide) 90 90 20 20).2⟩

end ACL
